import Mathlib

/-!
# Verification of the Fanuc 6-DOF kinematics lab against its specification

Shallow embedding of the repository (fanuc.py, robot_components.py,
general_utility.py) in Lean 4.  Real-valued geometry is modelled over `ℝ`;
Python integers over `ℤ`; Python list indexing (including negative indices
and `IndexError`) via `Option`.  Several bodies in the source are TODO
stubs (`dh_tf`, `calculate_fk`, `calculate_ik`, `get_ee_pose_from_brush`,
`draw_fanuc_path`, and the helpers `yawT`/`pitchT` referenced from the
missing part of `general_utility`); those are modelled from the spec and
carry a doc comment saying so.
-/

/-! ## Python value and error model -/

/-- A Python object as far as the validated entry points inspect it:
an `int`, a numpy `ndarray` carrying only its shape, or anything else. -/
inductive PyObj where
  | int (z : ℤ)
  | ndarray (shape : List ℕ)
  | other
deriving DecidableEq

/-- Python exceptions raised by the `Brush.selection` setter. -/
inductive PyErr where
  | typeError
  | valueError
deriving DecidableEq

/-- Python list indexing `l[i]`: non-negative indices from the front,
negative indices count from the back (`l[-1]` is the last element);
out-of-range access raises `IndexError`, modelled as `none`. -/
def pyGetElem {α : Type} (l : List α) (i : ℤ) : Option α :=
  if 0 ≤ i then
    l.get? i.toNat
  else if 0 ≤ (l.length : ℤ) + i then
    l.get? ((l.length : ℤ) + i).toNat
  else
    none

/-! ## general_utility.check_proper_numpy_format (source, lines 7-23)

The source function RETURNS a boolean (it raises nothing): `False` when the
value is not an ndarray or its shape differs from the requested one. -/

/-- Embedding of `general_utility.check_proper_numpy_format`. -/
def check_proper_numpy_format (value : PyObj) (shape : List ℕ) : Bool :=
  match value with
  | .ndarray s => s = shape
  | _ => false

/-- Embedding of the validation boundary of `Fanuc.draw_fanuc`
(fanuc.py lines 263-273): the source calls
`general.check_proper_numpy_format(joint_angles, (6,))` as a bare
expression statement, discarding the returned boolean, and then proceeds
into `calculate_fk` with the argument unchanged.  `Except.error` would
model a raised exception; no branch of the source raises one here. -/
def draw_fanuc_entry (joint_angles : PyObj) : Except PyErr PyObj :=
  let _shape_ok := check_proper_numpy_format joint_angles [6]
  Except.ok joint_angles

/-! ## Brush.selection setter and accessors (robot_components.py 11-48)

The colour table is the literal 4-element list from `Brush.__init__`;
its entries are exact decimal rationals. -/

/-- The `Brush._colors` list (robot_components.py lines 87-88). -/
def brush_colors : List (List ℚ) :=
  [[0.4940, 0.1840, 0.5560], [0.9290, 0.6940, 0.1250],
   [0.8500, 0.3250, 0.0980], [0, 0.4470, 0.7410]]

/-- Embedding of the `Brush.selection` setter: `TypeError` for a
non-`int`, `ValueError` when the value exceeds `len(self._colors)` (= 4);
no lower-bound check exists in the source. -/
def selection_set (x : PyObj) : Except PyErr ℤ :=
  match x with
  | .int z =>
      if z > (brush_colors.length : ℤ) then Except.error PyErr.valueError
      else Except.ok z
  | _ => Except.error PyErr.typeError

/-- The `Brush._brush_frames` list in its initial state
(`[np.eye(4) for _ in range(4)]`, robot_components.py line 102). -/
def brush_frames_init : List (Matrix (Fin 4) (Fin 4) ℚ) :=
  List.replicate 4 1

/-- Embedding of the `Brush.color` property (line 36): indexes
`self._colors[self._selection]` with Python list semantics. -/
def brush_color (selection : ℤ) : Option (List ℚ) :=
  pyGetElem brush_colors selection

/-- Embedding of the `Brush.selected_brush_frame` property (lines 38-48),
read on the initial `_brush_frames` state: identity for selection 0, else
`self._brush_frames[self._selection - 1]` with Python list semantics. -/
def selected_brush_frame (selection : ℤ) : Option (Matrix (Fin 4) (Fin 4) ℚ) :=
  if selection = 0 then some 1
  else pyGetElem brush_frames_init (selection - 1)

/-! ## Path executor (fanuc.py draw_fanuc_path, lines 224-236) -/

/-- An arm configuration: six joint angles in radians. -/
def Cfg : Type := Fin 6 → ℝ

/-- A path waypoint as deserialized from the yaml records
`{"color": int, "x": float, "y": float, "z": float}`. -/
structure Waypoint where
  color : ℤ
  x : ℝ
  y : ℝ
  z : ℝ

/-- Reason an IK query reports no solution (spec §7 taxonomy). -/
inductive IkFailReason where
  | unreachable
  | limitExhausted
deriving DecidableEq

/-- Outcome of one IK query, as an explicit result (spec §7: IK outcomes
are returned, never thrown). -/
inductive IkResult where
  | success (q : Cfg)
  | failure (reason : IkFailReason)

/-- Modelled from the spec: the body of `Fanuc.draw_fanuc_path` is a TODO
stub (it only loads the yaml file).  Per spec §4.5 the executor visits the
waypoints strictly in order, appends each successful configuration to the
trajectory, seeds the next IK call with it, and on the first IK failure
stops immediately, returning the trajectory so far with the failing
waypoint's index and reason.  The solver is passed as a parameter. -/
def run_path_from (solve : Waypoint → Cfg → IkResult) (idx : ℕ) (q : Cfg) :
    List Waypoint → List Cfg × Option (ℕ × IkFailReason)
  | [] => ([], none)
  | w :: rest =>
    match solve w q with
    | .success q' =>
        let tail := run_path_from solve (idx + 1) q' rest
        (q' :: tail.1, tail.2)
    | .failure r => ([], some (idx, r))

/-- Modelled from the spec: `draw_fanuc_path` entry point — run the path
executor from index 0 with the provided starting configuration. -/
def draw_fanuc_path (solve : Waypoint → Cfg → IkResult) (start : Cfg)
    (path : List Waypoint) : List Cfg × Option (ℕ × IkFailReason) :=
  run_path_from solve 0 start path

/-- `SolvesAll solve q ws tr qf` says the solver succeeds on every
waypoint of `ws` in order, starting from seed `q`: each success seeds the
next call, `tr` is the list of configurations produced (one per
waypoint, in order), and `qf` is the final configuration (the seed for
whatever follows `ws`). -/
inductive SolvesAll (solve : Waypoint → Cfg → IkResult) :
    Cfg → List Waypoint → List Cfg → Cfg → Prop where
  | nil (q : Cfg) : SolvesAll solve q [] [] q
  | cons {q q1 qf : Cfg} {w : Waypoint} {ws : List Waypoint}
      {tr : List Cfg} :
      solve w q = IkResult.success q1 → SolvesAll solve q1 ws tr qf →
      SolvesAll solve q (w :: ws) (q1 :: tr) qf

/-! ## Transform library over the reals -/

noncomputable section

/-- Real 3x3 matrix (rotation block). -/
abbrev Mat3 := Matrix (Fin 3) (Fin 3) ℝ

/-- Real 4x4 matrix (homogeneous transform). -/
abbrev Mat4 := Matrix (Fin 4) (Fin 4) ℝ

/-- Elementary rotation about the Z axis. -/
def Rz (t : ℝ) : Mat3 :=
  !![Real.cos t, -Real.sin t, 0;
     Real.sin t,  Real.cos t, 0;
     0, 0, 1]

/-- Elementary rotation about the Y axis. -/
def Ry (t : ℝ) : Mat3 :=
  !![Real.cos t, 0, Real.sin t;
     0, 1, 0;
     -Real.sin t, 0, Real.cos t]

/-- Elementary rotation about the X axis. -/
def Rx (t : ℝ) : Mat3 :=
  !![1, 0, 0;
     0, Real.cos t, -Real.sin t;
     0, Real.sin t,  Real.cos t]

/-- Assemble a homogeneous transform from a rotation block and a
translation vector (the layout produced by `kdl_frame_to_np`). -/
def homog (R : Mat3) (t : Fin 3 → ℝ) : Mat4 :=
  !![R 0 0, R 0 1, R 0 2, t 0;
     R 1 0, R 1 1, R 1 2, t 1;
     R 2 0, R 2 1, R 2 2, t 2;
     0, 0, 0, 1]

/-- The 3x3 rotation block of a 4x4 homogeneous matrix. -/
def rotBlock (M : Mat4) : Mat3 :=
  Matrix.of fun i j => M i.castSucc j.castSucc

/-- The translation column of a 4x4 homogeneous matrix. -/
def transOf (M : Mat4) : Fin 3 → ℝ :=
  fun i => M i.castSucc 3

/-- Homogeneous rotation about Z (4x4). -/
def RotZ4 (t : ℝ) : Mat4 := homog (Rz t) 0

/-- Homogeneous rotation about X (4x4). -/
def RotX4 (t : ℝ) : Mat4 := homog (Rx t) 0

/-- Homogeneous translation along Z (4x4). -/
def TransZ4 (d : ℝ) : Mat4 := homog 1 ![0, 0, d]

/-- Homogeneous translation along X (4x4). -/
def TransX4 (a : ℝ) : Mat4 := homog 1 ![a, 0, 0]

/-- Modelled from the spec: `general_utility.yawT` is referenced from
`robot_components.py` but absent from the source file; per spec §4.1 the
transforms are built from elementary rotations, so it is the homogeneous
rotation about Z. -/
def yawT (t : ℝ) : Mat4 := homog (Rz t) 0

/-- Modelled from the spec: `general_utility.pitchT` is referenced from
`robot_components.py` but absent from the source file; it is the
homogeneous rotation about Y. -/
def pitchT (t : ℝ) : Mat4 := homog (Ry t) 0

/-- Modelled from the spec: the body of `dh_tf` (fanuc.py lines 13-27) is
a TODO stub (`return` with no value).  Per spec §4.1, `dhTransform` is the
standard DH product RotZ(theta) * TransZ(d) * TransX(a) * RotX(alpha);
this is its closed form, as an implementation writes it entrywise. -/
def dh_tf (alpha a d theta : ℝ) : Mat4 :=
  !![Real.cos theta, -Real.sin theta * Real.cos alpha,
       Real.sin theta * Real.sin alpha, a * Real.cos theta;
     Real.sin theta,  Real.cos theta * Real.cos alpha,
       -Real.cos theta * Real.sin alpha, a * Real.sin theta;
     0, Real.sin alpha, Real.cos alpha, d;
     0, 0, 0, 1]

/-- Embedding of `make_frame` (fanuc.py lines 30-46): a KDL rotation built
by DoRotZ, then DoRotY, then DoRotX (each post-multiplies, so the result
is Rz * Ry * Rx), assembled with the translation into a 4x4. -/
def make_frame (rotation translation : Fin 3 → ℝ) : Mat4 :=
  homog (Rz (rotation 2) * Ry (rotation 1) * Rx (rotation 0)) translation

/-! ## Tool (brush) geometry, robot_components.py lines 93-143 -/

/-- Embedding of `Brush._make_tool_frame` (lines 121-143):
`eye @ yawT(rot[2]) @ transX(trans[0]) @ pitchT(rot[1]) @ transZ(trans[2])`
where the translation factors are identity matrices with the single
off-diagonal entry set, i.e. `TransX4`/`TransZ4`. -/
def make_tool_frame (rotation translation : Fin 3 → ℝ) : Mat4 :=
  yawT (rotation 2) * TransX4 (translation 0) *
    pitchT (rotation 1) * TransZ4 (translation 2)

/-- Tool 1 relative frame (`_create_tool_relative_frames`, with
`l_t_rad = 50`, `l_t = 300`). -/
def tool_frame_1 : Mat4 :=
  make_tool_frame ![0, -(Real.pi / 4), 5 * Real.pi / 4] ![-50, 0, 300]

/-- Tool 2 relative frame. -/
def tool_frame_2 : Mat4 :=
  make_tool_frame ![0, -(Real.pi / 4), 7 * Real.pi / 4] ![-50, 0, 300]

/-- Tool 3 relative frame. -/
def tool_frame_3 : Mat4 :=
  make_tool_frame ![0, -(Real.pi / 4), Real.pi / 4] ![-50, 0, 300]

/-- Tool 4 relative frame. -/
def tool_frame_4 : Mat4 :=
  make_tool_frame ![0, -(Real.pi / 4), 3 * Real.pi / 4] ![-50, 0, 300]

/-- The `Brush._tool_relative_frames` list (4 entries, ids 1..4). -/
def tool_relative_frames : List Mat4 :=
  [tool_frame_1, tool_frame_2, tool_frame_3, tool_frame_4]

/-- The relative frame of the non-zero tool id `k + 1`. -/
def tool_relative_frame (k : Fin 4) : Mat4 :=
  ![tool_frame_1, tool_frame_2, tool_frame_3, tool_frame_4] k

/-- The mutable resolver state carried by `Brush`: the current selection
and `_previously_selected_brush_frame` (initialised to 1). -/
structure BrushSel where
  selection : ℤ
  previously_selected : ℤ

/-- Embedding of the `Brush.selected_brush_frame_dh` property
(robot_components.py lines 50-67), with Python list indexing made total
via `Option` (`none` models `IndexError`): selection 0 reads
`_tool_relative_frames[_previously_selected_brush_frame]`; a non-zero
selection records itself in `_previously_selected_brush_frame` and reads
`_tool_relative_frames[selection - 1]`.  Returns the read together with
the updated state. -/
def selected_brush_frame_dh (st : BrushSel) : Option Mat4 × BrushSel :=
  if st.selection = 0 then
    (pyGetElem tool_relative_frames st.previously_selected, st)
  else
    (pyGetElem tool_relative_frames (st.selection - 1),
     { st with previously_selected := st.selection })

/-- The rigid-transform inverse of spec §3: transpose of the rotation
block, negated rotated translation. -/
def rigid_inverse (M : Mat4) : Mat4 :=
  homog (rotBlock M).transpose (-(Matrix.mulVec (rotBlock M).transpose (transOf M)))

/-- Modelled from the spec: the body of `Fanuc.get_ee_pose_from_brush`
(fanuc.py lines 201-222) is a TODO stub returning Ellipsis.  Per spec
§4.4, `desiredEndEffectorFrame(toolFrame, toolId)` is the tool-tip frame
times the inverse of the selected tool's relative transform; the brush
frame is assembled from the given rotation and position, and the tool id
`k + 1` is passed explicitly. -/
def get_ee_pose_from_brush (rotation : Mat3) (brush_pose : Fin 3 → ℝ)
    (k : Fin 4) : Mat4 :=
  homog rotation brush_pose * rigid_inverse (tool_relative_frame k)

/-- Embedding of the forward tool composition
(`Brush._update_tool_frames`, line 164: the brush tip frame is
`tool_base_frame @ relative_frame`). -/
def brush_tip_frame (ee : Mat4) (k : Fin 4) : Mat4 :=
  ee * tool_relative_frame k

/-! ## Kinematic chain model -/

/-- The static robot geometry (spec §3 JointSpec table plus §6 static
configuration): per-joint DH parameters (twist `alpha`, length `a`,
offset `d`, angle-offset `offset`), joint limits, the base-mount height
`l_1_z`, the two arm-link lengths used by IK and the wrist-to-flange
offset.  The numeric values are Ellipsis placeholders in the source
(`Fanuc.__init__` / `_setup_joints` are TODO), so the model is
parametrised over them. -/
structure FanucGeom where
  alpha : Fin 6 → ℝ
  a : Fin 6 → ℝ
  d : Fin 6 → ℝ
  offset : Fin 6 → ℝ
  low : Fin 6 → ℝ
  high : Fin 6 → ℝ
  l_1_z : ℝ
  link2 : ℝ
  link3 : ℝ
  wristOffset : ℝ

/-- Embedding of `Joint.is_inside_joint_limit` (robot_components.py
lines 345-357): true iff `low <= angle <= high`. -/
def is_inside_joint_limit (low high input_angle : ℝ) : Prop :=
  low ≤ input_angle ∧ input_angle ≤ high

/-- Modelled from the spec: the body of `Fanuc.calculate_fk` (fanuc.py
lines 162-178) is a TODO stub.  Per spec §4.2 it loads joint i's DH
transform with theta = supplied angle i plus that joint's angle-offset
constant; the result is the per-joint DH transform table that `ee_frame`
reads. -/
def calculate_fk (g : FanucGeom) (joint_angles : Fin 6 → ℝ) : Fin 6 → Mat4 :=
  fun i => dh_tf (g.alpha i) (g.a i) (g.d i) (joint_angles i + g.offset i)

/-- Embedding of the `Fanuc.ee_frame` property (fanuc.py lines 79-90):
the ordered product of the six joints' stored DH transforms — and nothing
else; the base frame does not appear in this product. -/
def ee_frame (J : Fin 6 → Mat4) : Mat4 :=
  J 0 * J 1 * J 2 * J 3 * J 4 * J 5

/-- The base-mount frame (fanuc.py line 124):
`make_frame([0, 0, 0], [0, 0, l_1_z])`. -/
def base_frame (g : FanucGeom) : Mat4 :=
  make_frame ![0, 0, 0] ![0, 0, g.l_1_z]

/-- A concrete geometry instance used for counterexamples: all DH
parameters zero, mount height 300 mm (the source leaves the numbers as
Ellipsis; spec §4.2 only requires the mount height to be a physical
height above joint 1). -/
def g_cx : FanucGeom :=
  ⟨fun _ => 0, fun _ => 0, fun _ => 0, fun _ => 0,
   fun _ => 0, fun _ => 0, 300, 0, 0, 0⟩

/-! ## Inverse kinematics (spec section 4.3)

The body of `Fanuc.calculate_ik` (fanuc.py lines 181-199) is a TODO stub
returning `(False, [])`; spec section 9 states the source is template-only
and defines the target algorithm.  The definitions below are modelled
from the spec's six algorithm steps. -/

/-- Two-argument arctangent: the angle of the point (x, y). -/
def atan2 (y x : ℝ) : ℝ := Complex.arg ⟨x, y⟩

/-- Modelled from the spec (step 1): the wrist-center position, obtained
by translating from the desired end-effector position backward along its
local z-axis (third rotation column) by the wrist-to-flange offset. -/
def wrist_center (g : FanucGeom) (T : Mat4) : Fin 3 → ℝ :=
  fun i => T i.castSucc 3 - g.wristOffset * T i.castSucc 2

/-- The wrist-center distance used by the reachability test. -/
def wrist_dist (g : FanucGeom) (T : Mat4) : ℝ :=
  Real.sqrt ((wrist_center g T 0) ^ 2 + (wrist_center g T 1) ^ 2 +
    (wrist_center g T 2) ^ 2)

/-- Modelled from the spec (step 6): the target is reachable when the
wrist-center distance lies between the difference and the sum of the two
arm-link lengths. -/
def ik_reachable (g : FanucGeom) (T : Mat4) : Prop :=
  |g.link2 - g.link3| ≤ wrist_dist g T ∧ wrist_dist g T ≤ g.link2 + g.link3

/-- Modelled from the spec (steps 2-3): the four (joint1, joint2, joint3)
position branches — base yaw from the wrist-center projection (forward,
and rotated by pi with joints 2/3 mirrored) times the elbow-up /
elbow-down choice from the law-of-cosines solve. -/
def arm_candidates (g : FanucGeom) (T : Mat4) : List (ℝ × ℝ × ℝ) :=
  let wc := wrist_center g T
  let q1 := atan2 (wc 1) (wc 0)
  let D := wrist_dist g T
  let c3 := (D ^ 2 - g.link2 ^ 2 - g.link3 ^ 2) / (2 * g.link2 * g.link3)
  let q3 := Real.arccos c3
  let r := Real.sqrt ((wc 0) ^ 2 + (wc 1) ^ 2)
  let q2u := atan2 (wc 2) r -
    atan2 (g.link3 * Real.sin q3) (g.link2 + g.link3 * Real.cos q3)
  let q2d := atan2 (wc 2) r -
    atan2 (g.link3 * Real.sin (-q3)) (g.link2 + g.link3 * Real.cos (-q3))
  [(q1, q2u, q3), (q1, q2d, -q3),
   (q1 + Real.pi, Real.pi - q2u, -q3), (q1 + Real.pi, Real.pi - q2d, q3)]

/-- The rotation contributed by the first three joints, read off the DH
chain at the given joint-1..3 angles. -/
def arm_rotation (g : FanucGeom) (q1 q2 q3 : ℝ) : Mat3 :=
  rotBlock (dh_tf (g.alpha 0) (g.a 0) (g.d 0) (q1 + g.offset 0) *
            dh_tf (g.alpha 1) (g.a 1) (g.d 1) (q2 + g.offset 1) *
            dh_tf (g.alpha 2) (g.a 2) (g.d 2) (q3 + g.offset 2))

/-- Modelled from the spec (step 4): joints 4-6 from the Euler
decomposition of the residual wrist rotation.  In the regular case the
two wrist-flip branches; at the wrist singularity (joint 5 numerically
zero) joint 4 is fixed to its previous value and joint 6 solved from the
residual, rather than reporting failure. -/
def wrist_angles (prev : Cfg) (R : Mat3) : List (ℝ × ℝ × ℝ) :=
  let s5 := Real.sqrt ((R 0 2) ^ 2 + (R 1 2) ^ 2)
  if s5 = 0 then
    [(prev 3, atan2 s5 (R 2 2), atan2 (R 1 0) (R 0 0) - prev 3)]
  else
    [(atan2 (R 1 2) (R 0 2), atan2 s5 (R 2 2), atan2 (R 2 1) (-(R 2 0))),
     (atan2 (-(R 1 2)) (-(R 0 2)), atan2 (-s5) (R 2 2),
       atan2 (-(R 2 1)) (R 2 0))]

/-- Modelled from the spec (steps 2-4): the up to 8 full candidate
configurations (4 position branches, each with its wrist branches). -/
def ik_candidates (g : FanucGeom) (T : Mat4) (prev : Cfg) : List Cfg :=
  (arm_candidates g T).flatMap fun p =>
    (wrist_angles prev ((arm_rotation g p.1 p.2.1 p.2.2).transpose *
        rotBlock T)).map fun w =>
      fun i : Fin 6 => ![p.1, p.2.1, p.2.2, w.1, w.2.1, w.2.2] i

/-- A candidate satisfies every joint's [low, high] limit. -/
def inside_limits (g : FanucGeom) (q : Cfg) : Prop :=
  ∀ i, is_inside_joint_limit (g.low i) (g.high i) (q i)

/-- Limit membership is decided classically (the source compares floats). -/
noncomputable instance (g : FanucGeom) (q : Cfg) : Decidable (inside_limits g q) :=
  Classical.propDecidable _

/-- Reachability is decided classically (the source compares floats). -/
noncomputable instance (g : FanucGeom) (T : Mat4) : Decidable (ik_reachable g T) :=
  Classical.propDecidable _

/-- Modelled from the spec (step 5): discard any candidate violating a
joint limit. -/
def valid_candidates (g : FanucGeom) (T : Mat4) (prev : Cfg) : List Cfg :=
  (ik_candidates g T prev).filter fun q => decide (inside_limits g q)

/-- The minimal-magnitude equivalent angular difference (wrapped into
(-pi, pi]). -/
def ang_diff (x : ℝ) : ℝ :=
  x - 2 * Real.pi * (round (x / (2 * Real.pi)) : ℤ)

/-- Total angular distance between a candidate and the seed
configuration. -/
def seed_dist (prev q : Cfg) : ℝ :=
  ∑ i, |ang_diff (q i - prev i)|

/-- Modelled from the spec (step 5): among the remaining candidates,
select the one minimizing total angular distance to the seed. -/
def select_nearest (prev : Cfg) (q0 : Cfg) (qs : List Cfg) : Cfg :=
  qs.foldl (fun best q =>
    if seed_dist prev q < seed_dist prev best then q else best) q0

/-- Modelled from the spec: the body of `Fanuc.calculate_ik` is a TODO
stub returning `(False, [])`.  Per spec §4.3: report no solution when the
target is unreachable (step 6) or when every candidate violates a limit;
otherwise succeed with the limit-valid candidate nearest the seed.  The
Python stub's empty-list failure payload is modelled as the zero
configuration. -/
def calculate_ik (g : FanucGeom) (T : Mat4) (prev : Cfg) : Bool × Cfg :=
  if ik_reachable g T then
    match valid_candidates g T prev with
    | [] => (false, fun _ => 0)
    | q :: qs => (true, select_nearest prev q qs)
  else
    (false, fun _ => 0)

end

/-! ## Concrete inputs used by witnesses -/

/-- The all-zero configuration. -/
noncomputable def demo_cfg : Cfg := fun _ => 0

/-- A waypoint at the origin carrying the given tool-selection id. -/
noncomputable def demo_wp (c : ℤ) : Waypoint := ⟨c, 0, 0, 0⟩

/-- A concrete IK solver used to witness the path-executor theorem:
fails (unreachable) exactly on waypoints whose id is 0, otherwise keeps
the seed configuration. -/
noncomputable def demo_solve : Waypoint → Cfg → IkResult := fun w q =>
  if w.color = 0 then IkResult.failure IkFailReason.unreachable
  else IkResult.success q

/-! ## Helper lemmas: entrywise facts about the transform library -/

theorem Rz_transpose (t : ℝ) :
    (Rz t).transpose = !![Real.cos t, Real.sin t, 0;
                          -Real.sin t, Real.cos t, 0;
                          0, 0, 1] := by
  ext i j
  fin_cases i <;> fin_cases j <;> rfl

theorem Ry_transpose (t : ℝ) :
    (Ry t).transpose = !![Real.cos t, 0, -Real.sin t;
                          0, 1, 0;
                          Real.sin t, 0, Real.cos t] := by
  ext i j
  fin_cases i <;> fin_cases j <;> rfl

theorem Rx_transpose (t : ℝ) :
    (Rx t).transpose = !![1, 0, 0;
                          0, Real.cos t, Real.sin t;
                          0, -Real.sin t, Real.cos t] := by
  ext i j
  fin_cases i <;> fin_cases j <;> rfl

theorem Rz_orth (t : ℝ) : (Rz t).transpose * Rz t = 1 := by
  rw [Rz_transpose, Rz, Matrix.mul_fin_three, Matrix.one_fin_three]
  ext i j
  fin_cases i <;> fin_cases j <;> simp [Matrix.vecHead, Matrix.vecTail] <;>
    nlinarith [Real.sin_sq_add_cos_sq t]

theorem Ry_orth (t : ℝ) : (Ry t).transpose * Ry t = 1 := by
  rw [Ry_transpose, Ry, Matrix.mul_fin_three, Matrix.one_fin_three]
  ext i j
  fin_cases i <;> fin_cases j <;> simp [Matrix.vecHead, Matrix.vecTail] <;>
    nlinarith [Real.sin_sq_add_cos_sq t]

theorem Rx_orth (t : ℝ) : (Rx t).transpose * Rx t = 1 := by
  rw [Rx_transpose, Rx, Matrix.mul_fin_three, Matrix.one_fin_three]
  ext i j
  fin_cases i <;> fin_cases j <;> simp [Matrix.vecHead, Matrix.vecTail] <;>
    nlinarith [Real.sin_sq_add_cos_sq t]

theorem det_Rz (t : ℝ) : (Rz t).det = 1 := by
  rw [Rz, Matrix.det_fin_three]
  simp
  nlinarith [Real.sin_sq_add_cos_sq t]

theorem det_Ry (t : ℝ) : (Ry t).det = 1 := by
  rw [Ry, Matrix.det_fin_three]
  simp
  nlinarith [Real.sin_sq_add_cos_sq t]

theorem det_Rx (t : ℝ) : (Rx t).det = 1 := by
  rw [Rx, Matrix.det_fin_three]
  simp
  nlinarith [Real.sin_sq_add_cos_sq t]

theorem orth_mul {A B : Mat3} (hA : A.transpose * A = 1)
    (hB : B.transpose * B = 1) : (A * B).transpose * (A * B) = 1 := by
  rw [Matrix.transpose_mul]
  calc B.transpose * A.transpose * (A * B)
      = B.transpose * (A.transpose * A * B) := by
        rw [Matrix.mul_assoc, Matrix.mul_assoc]
    _ = B.transpose * B := by rw [hA, Matrix.one_mul]
    _ = 1 := hB

theorem rotBlock_homog (R : Mat3) (t : Fin 3 → ℝ) :
    rotBlock (homog R t) = R := by
  ext i j
  fin_cases i <;> fin_cases j <;>
    simp [rotBlock, homog, Fin.castSucc, Fin.castAdd, Fin.castLE]

theorem transOf_homog (R : Mat3) (t : Fin 3 → ℝ) : transOf (homog R t) = t := by
  funext i
  fin_cases i <;> simp [transOf, homog, Fin.castSucc, Fin.castAdd, Fin.castLE]

theorem homog_mul (A B : Mat3) (s t : Fin 3 → ℝ) :
    homog A s * homog B t = homog (A * B) (A.mulVec t + s) := by
  ext i j
  fin_cases i <;> fin_cases j <;>
    simp [homog, Matrix.mul_apply, Fin.sum_univ_four, Matrix.mulVec,
      Matrix.dotProduct, Fin.sum_univ_three]

theorem homog_one : homog 1 0 = (1 : Mat4) := by
  ext i j
  fin_cases i <;> fin_cases j <;>
    simp [homog, Matrix.one_apply, Matrix.vecHead, Matrix.vecTail]

theorem dh_tf_eq_homog (alpha a d theta : ℝ) :
    dh_tf alpha a d theta = homog (Rz theta * Rx alpha)
      ![a * Real.cos theta, a * Real.sin theta, d] := by
  rw [Rz, Rx, Matrix.mul_fin_three]
  ext i j
  fin_cases i <;> fin_cases j <;>
    simp [dh_tf, homog, Matrix.vecHead, Matrix.vecTail]

theorem dh_tf_factorization (alpha a d theta : ℝ) :
    dh_tf alpha a d theta = RotZ4 theta * TransZ4 d * TransX4 a * RotX4 alpha := by
  have hv : (Rz theta).mulVec ![a, 0, 0] + (Rz theta).mulVec ![0, 0, d]
      = ![a * Real.cos theta, a * Real.sin theta, d] := by
    funext i
    fin_cases i <;>
      simp [Rz, Matrix.mulVec, Matrix.dotProduct, Fin.sum_univ_three,
        Matrix.vecHead, Matrix.vecTail]
  rw [RotZ4, TransZ4, TransX4, RotX4, homog_mul, homog_mul, homog_mul]
  simp only [Matrix.mul_one, Matrix.mulVec_zero, add_zero, zero_add]
  rw [hv, dh_tf_eq_homog]

theorem rigid_inverse_homog (R : Mat3) (t : Fin 3 → ℝ) :
    rigid_inverse (homog R t) =
      homog R.transpose (-(R.transpose.mulVec t)) := by
  rw [rigid_inverse, rotBlock_homog, transOf_homog]

theorem rigid_inverse_mul (R : Mat3) (t : Fin 3 → ℝ)
    (h : R.transpose * R = 1) :
    rigid_inverse (homog R t) * homog R t = 1 := by
  rw [rigid_inverse_homog, homog_mul, h, add_neg_cancel, homog_one]

theorem make_tool_frame_eq_homog (rot tr : Fin 3 → ℝ) :
    make_tool_frame rot tr = homog (Rz (rot 2) * Ry (rot 1))
      ((Rz (rot 2) * Ry (rot 1)).mulVec ![0, 0, tr 2] +
        (Rz (rot 2)).mulVec ![tr 0, 0, 0]) := by
  rw [make_tool_frame, yawT, TransX4, pitchT, TransZ4, homog_mul, homog_mul,
    homog_mul]
  simp only [Matrix.mul_one, Matrix.mulVec_zero, add_zero, zero_add]

theorem tool_relative_frame_rigid (k : Fin 4) :
    ∃ S t, tool_relative_frame k = homog S t ∧ S.transpose * S = 1 := by
  fin_cases k <;>
    exact ⟨_, _, make_tool_frame_eq_homog _ _,
      orth_mul (Rz_orth _) (Ry_orth _)⟩

theorem dh_tf_zero : dh_tf 0 0 0 (0 + 0) = (1 : Mat4) := by
  ext i j
  fin_cases i <;> fin_cases j <;>
    simp [dh_tf, Matrix.one_apply, Matrix.vecHead, Matrix.vecTail]

/-! ## Claim theorems -/

/-- Claim C3: for all real inputs, `dh_tf(alpha, a, d, theta)` equals the
product RotZ(theta) * TransZ(d) * TransX(a) * RotX(alpha) of the four
elementary homogeneous transforms. -/
theorem dh_tf_is_elementary_product :
    ∀ alpha a d theta : ℝ,
      dh_tf alpha a d theta = RotZ4 theta * TransZ4 d * TransX4 a * RotX4 alpha :=
  fun alpha a d theta => dh_tf_factorization alpha a d theta

/-- Claim C4: for every real input, the 4x4 matrices returned by `dh_tf`
and by `make_frame` have a 3x3 rotation block with orthonormal columns
(transpose times the block is the identity) and determinant +1. -/
theorem rotation_blocks_orthonormal :
    ∀ (alpha a d theta : ℝ) (rot tr : Fin 3 → ℝ),
      ((rotBlock (dh_tf alpha a d theta)).transpose *
          rotBlock (dh_tf alpha a d theta) = 1 ∧
        (rotBlock (dh_tf alpha a d theta)).det = 1) ∧
      ((rotBlock (make_frame rot tr)).transpose *
          rotBlock (make_frame rot tr) = 1 ∧
        (rotBlock (make_frame rot tr)).det = 1) := by
  intro alpha a d theta rot tr
  have h1 : rotBlock (dh_tf alpha a d theta) = Rz theta * Rx alpha := by
    rw [dh_tf_eq_homog, rotBlock_homog]
  have h2 : rotBlock (make_frame rot tr) =
      Rz (rot 2) * Ry (rot 1) * Rx (rot 0) := by
    rw [make_frame, rotBlock_homog]
  refine ⟨⟨?_, ?_⟩, ?_, ?_⟩
  · rw [h1]; exact orth_mul (Rz_orth _) (Rx_orth _)
  · rw [h1, Matrix.det_mul, det_Rz, det_Rx]; norm_num
  · rw [h2]; exact orth_mul (orth_mul (Rz_orth _) (Ry_orth _)) (Rx_orth _)
  · rw [h2, Matrix.det_mul, Matrix.det_mul, det_Rz, det_Ry, det_Rx]; norm_num

/-- Claim C2 (amended): after `calculate_fk`, the end-effector frame read
from `ee_frame` equals the ordered product of the six per-joint DH
transforms — each being RotZ(angle i + offset i) * TransZ(d i) *
TransX(a i) * RotX(alpha i) — WITHOUT the base-mount offset factor, which
`ee_frame` does not include (it is applied only in the drawing routine
`draw_fanuc`). -/
theorem ee_frame_is_pure_dh_product :
    ∀ (g : FanucGeom) (q : Fin 6 → ℝ),
      ee_frame (calculate_fk g q) =
        (RotZ4 (q 0 + g.offset 0) * TransZ4 (g.d 0) * TransX4 (g.a 0) *
          RotX4 (g.alpha 0)) *
        (RotZ4 (q 1 + g.offset 1) * TransZ4 (g.d 1) * TransX4 (g.a 1) *
          RotX4 (g.alpha 1)) *
        (RotZ4 (q 2 + g.offset 2) * TransZ4 (g.d 2) * TransX4 (g.a 2) *
          RotX4 (g.alpha 2)) *
        (RotZ4 (q 3 + g.offset 3) * TransZ4 (g.d 3) * TransX4 (g.a 3) *
          RotX4 (g.alpha 3)) *
        (RotZ4 (q 4 + g.offset 4) * TransZ4 (g.d 4) * TransX4 (g.a 4) *
          RotX4 (g.alpha 4)) *
        (RotZ4 (q 5 + g.offset 5) * TransZ4 (g.d 5) * TransX4 (g.a 5) *
          RotX4 (g.alpha 5)) := by
  intro g q
  simp only [ee_frame, calculate_fk, dh_tf_factorization]

/-- Claim C2 counterexample: at the zero DH table with mount height
300 mm and all joint angles zero, the frame `ee_frame` returns differs
from the base-mount offset times the ordered DH product in the (2,3)
translation entry — so C2 as stated (with the base-offset factor) is
false of `ee_frame`. -/
theorem ee_frame_omits_base_offset :
    ee_frame (calculate_fk g_cx fun _ => 0) 2 3 ≠
      (base_frame g_cx * ee_frame (calculate_fk g_cx fun _ => 0)) 2 3 := by
  have h1 : calculate_fk g_cx (fun _ => 0) = fun _ => (1 : Mat4) := by
    funext i
    show dh_tf 0 0 0 (0 + 0) = 1
    exact dh_tf_zero
  have h2 : ee_frame (calculate_fk g_cx fun _ => 0) = 1 := by
    rw [h1]; simp [ee_frame]
  have hb : base_frame g_cx 2 3 = 300 := by
    show make_frame ![0, 0, 0] ![0, 0, (300 : ℝ)] 2 3 = 300
    simp [make_frame, homog]
  have ho : (1 : Mat4) 2 3 = 0 := by
    simp [Matrix.one_apply]
  rw [h2, Matrix.mul_one, ho, hb]
  norm_num

/-- Claim C5 (code bug): select brush 4 (recorded as the previous
selection, and successfully read), then select 0; the id-0 read indexes
`_tool_relative_frames[4]` — one past the end of the 4-element list — and
raises `IndexError` (modelled `none`) instead of returning tool 4's
relative transform as the claim and the property's own docstring say. -/
theorem selected_brush_frame_dh_index_bug :
    (selected_brush_frame_dh ⟨4, 1⟩).2.previously_selected = 4 ∧
    (selected_brush_frame_dh ⟨4, 1⟩).1.isSome = true ∧
    (selected_brush_frame_dh ⟨0, 4⟩).1 = none :=
  ⟨rfl, rfl, rfl⟩

/-- Claim C6: for every tool-tip frame (rotation plus position) and every
non-zero tool id k+1, composing the end-effector frame returned by
`get_ee_pose_from_brush` with that tool's relative transform reproduces
the tool-tip frame exactly. -/
theorem tool_roundtrip :
    ∀ (R : Mat3) (p : Fin 3 → ℝ) (k : Fin 4),
      brush_tip_frame (get_ee_pose_from_brush R p k) k = homog R p := by
  intro R p k
  obtain ⟨S, t, hEq, hS⟩ := tool_relative_frame_rigid k
  rw [brush_tip_frame, get_ee_pose_from_brush, hEq, Matrix.mul_assoc,
    rigid_inverse_mul S t hS, Matrix.mul_one]

theorem run_path_from_abort
    (solve : Waypoint → Cfg → IkResult) {q0 qf : Cfg} {pre : List Waypoint}
    {traj : List Cfg} (w : Waypoint) (post : List Waypoint)
    {r : IkFailReason} (hpre : SolvesAll solve q0 pre traj qf)
    (hw : solve w qf = IkResult.failure r) :
    ∀ idx : ℕ, run_path_from solve idx q0 (pre ++ w :: post) =
      (traj, some (idx + pre.length, r)) := by
  induction hpre with
  | nil q =>
    intro idx
    simp [run_path_from, hw]
  | cons hs _ ih =>
    intro idx
    simp only [List.cons_append, run_path_from, hs, List.append_eq,
      ih hw (idx + 1), List.length_cons, Prod.mk.injEq, Option.some.injEq]
    refine ⟨trivial, ?_, trivial⟩
    omega

/-- Claim C8: the path executor processes every ordered path strictly in
order and, at the first IK failure, stops immediately and returns the
trajectory produced so far together with the failing waypoint's index
and reason: whenever the path splits as `pre ++ w :: post` with every
waypoint of `pre` succeeding in order from the start (producing
trajectory `traj`, one configuration per waypoint) and `w` failing on
the resulting seed, the executor returns `(traj, some (pre.length, r))`
— for every failure position `pre.length`, uniformly in the untouched
remainder `post`. -/
theorem path_executor_aborts_at_first_failure :
    ∀ (solve : Waypoint → Cfg → IkResult) (q0 qf : Cfg)
      (pre : List Waypoint) (traj : List Cfg) (w : Waypoint)
      (post : List Waypoint) (r : IkFailReason),
      SolvesAll solve q0 pre traj qf →
      solve w qf = IkResult.failure r →
      draw_fanuc_path solve q0 (pre ++ w :: post) =
          (traj, some (pre.length, r)) ∧
        traj.length = pre.length := by
  intro solve q0 qf pre traj w post r hpre hw
  have hlen : traj.length = pre.length := by
    clear hw
    induction hpre with
    | nil q => rfl
    | cons _ _ ih => simp [ih]
  refine ⟨?_, hlen⟩
  have h := run_path_from_abort solve w post hpre hw 0
  rw [draw_fanuc_path, h]
  simp

/-- Witness for claim C8: a concrete 3-waypoint path — one solvable
waypoint, then an unsolvable one, then one more — yields the trajectory
of length 1 and the abort record at index 1 (spec scenario C). -/
theorem path_executor_aborts_at_first_failure_witness :
    draw_fanuc_path demo_solve demo_cfg
        ([demo_wp 1] ++ demo_wp 0 :: [demo_wp 3]) =
      ([demo_cfg], some ([demo_wp 1].length, IkFailReason.unreachable)) ∧
    ([demo_cfg] : List Cfg).length = [demo_wp 1].length :=
  path_executor_aborts_at_first_failure demo_solve demo_cfg demo_cfg
    [demo_wp 1] [demo_cfg] (demo_wp 0) [demo_wp 3] IkFailReason.unreachable
    (SolvesAll.cons rfl (SolvesAll.nil demo_cfg)) rfl

/-- Claim C9 (code bug): a malformed (3,)-shaped vector passed to
`draw_fanuc` makes `check_proper_numpy_format` return `False`, but
`draw_fanuc` discards that boolean and proceeds with the malformed value
instead of raising at the call boundary. -/
theorem draw_fanuc_ignores_shape_check :
    check_proper_numpy_format (PyObj.ndarray [3]) [6] = false ∧
    draw_fanuc_entry (PyObj.ndarray [3]) = Except.ok (PyObj.ndarray [3]) :=
  ⟨rfl, rfl⟩

/-- Claim C10 counterexample: assigning selection = -4 succeeds (no
lower-bound check), but the brush-frame accessor then indexes the
4-element `_brush_frames` list at -5, which raises `IndexError` (`none`)
— refuting the claim that for EVERY negative integer the accessors
succeed via Python negative indexing. -/
theorem selection_negative_index_error :
    selection_set (PyObj.int (-4)) = Except.ok (-4) ∧
    selected_brush_frame (-4) = none :=
  ⟨rfl, rfl⟩

/-- Claim C10 (amended): for every negative integer n, assigning
selection = n succeeds (the setter checks only the type and the upper
bound); the colour accessor, indexing at n, then succeeds via Python
negative indexing exactly when n is at least -4, and the brush-frame
accessor, indexing at n - 1, exactly when n is at least -3; outside those
ranges the access raises `IndexError`. -/
theorem selection_negative_behavior :
    ∀ n : ℤ, n < 0 →
      selection_set (PyObj.int n) = Except.ok n ∧
      ((brush_color n).isSome ↔ -4 ≤ n) ∧
      ((selected_brush_frame n).isSome ↔ -3 ≤ n) := by
  intro n hn
  have hlen : (brush_colors.length : ℤ) = 4 := rfl
  refine ⟨?_, ?_, ?_⟩
  · simp only [selection_set, hlen]
    rw [if_neg (by omega : ¬ n > (4 : ℤ))]
  · by_cases h4 : -4 ≤ n
    · interval_cases n <;> decide
    · have hnone : brush_color n = none := by
        simp only [brush_color, pyGetElem, hlen]
        rw [if_neg (by omega), if_neg (by omega)]
      simp [hnone]
      omega
  · by_cases h3 : -4 ≤ n
    · interval_cases n <;> decide
    · have hfl : (brush_frames_init.length : ℤ) = 4 := rfl
      have hnone : selected_brush_frame n = none := by
        simp only [selected_brush_frame, pyGetElem, hfl]
        rw [if_neg (by omega), if_neg (by omega), if_neg (by omega)]
      simp [hnone]
      omega

/-- Witness for claim C10 (amended): at n = -2 the setter succeeds and
both accessors succeed via negative indexing. -/
theorem selection_negative_behavior_witness :
    (-2 : ℤ) < 0 ∧
      (selection_set (PyObj.int (-2)) = Except.ok (-2) ∧
        ((brush_color (-2)).isSome ↔ (-4 : ℤ) ≤ -2) ∧
        ((selected_brush_frame (-2)).isSome ↔ (-3 : ℤ) ≤ -2)) :=
  ⟨by decide, selection_negative_behavior (-2) (by decide)⟩

/-- Claim C7: `calculate_ik` reports found = false exactly when the
wrist-center distance violates the reachability band (greater than
link2 + link3 or less than their difference) or when every generated
candidate configuration violates some joint's [low, high] limit. -/
theorem calculate_ik_failure_characterization :
    ∀ (g : FanucGeom) (T : Mat4) (prev : Cfg),
      (calculate_ik g T prev).1 = false ↔
        (¬ ik_reachable g T ∨ valid_candidates g T prev = []) := by
  intro g T prev
  unfold calculate_ik
  split_ifs with h
  · cases hv : valid_candidates g T prev with
    | nil => simp [hv, h]
    | cons q qs => simp [hv, h]
  · simp [h]
